import Mathlib

/-!
Shallow embedding of the backend service under verification.

Sources embedded here:
  * `app/core/security.py`   — `validate_password`, `RateLimiter.is_allowed`
  * `app/api/deps.py`        — `PaginationParams.__init__`, `get_current_user`
  * `app/api/v1/files.py`    — `upload_file`, page count of `get_user_files`
  * `app/api/v1/auth.py`     — `refresh_token`, `logout`
  * `app/models/user.py`     — `User.has_permission`, `RefreshToken.is_valid`
  * `app/models/file.py`     — `FileRecord.is_public`, `FileRecord.is_shared`

Conventions: Python `int` is embedded as `Int` (arbitrary precision);
`datetime` instants are embedded as `Int` timestamps, so `datetime.utcnow()`
becomes an explicit `now : Int` argument; Python `//` on the nonnegative
operands reached here is `Int.fdiv`; `None`-able values become `Option`;
a raised `HTTPException(status, detail)` becomes an `Except`-error carrying
the status code and detail string.  Character classification
(`str.isupper` / `islower` / `isdigit`) is embedded with the ASCII
classifiers, which agree with Python on the ASCII inputs the service's
policy strings range over.
-/

namespace App

/-! ### `validate_password` (`app/core/security.py`, lines 245-266) -/

/-- The special-character set of the password policy:
`!@#$%^&*()_+-=[]{}|;:,.<>?` (braces escaped). -/
def specialChars : List Char := "!@#$%^&*()_+-=[]\x7b\x7d|;:,.<>?".toList

/-- Embedding of `validate_password`: the five checks in source order,
returning `(is_valid, message)`. -/
def validate_password (password : String) : Bool × String :=
  if password.length < 8 then
    (false, "Password must be at least 8 characters long")
  else if !password.toList.any Char.isUpper then
    (false, "Password must contain at least one uppercase letter")
  else if !password.toList.any Char.isLower then
    (false, "Password must contain at least one lowercase letter")
  else if !password.toList.any Char.isDigit then
    (false, "Password must contain at least one digit")
  else if !password.toList.any (fun c => specialChars.contains c) then
    (false, "Password must contain at least one special character")
  else
    (true, "Password is valid")

/-- The password rules as an ordered list of `(passes, failure message)`
pairs, stated independently of the if-chain so that the first-failing-rule
property is not a tautology. -/
def passwordChecks (p : String) : List (Bool × String) :=
  [ (!decide (p.length < 8), "Password must be at least 8 characters long"),
    (p.toList.any Char.isUpper, "Password must contain at least one uppercase letter"),
    (p.toList.any Char.isLower, "Password must contain at least one lowercase letter"),
    (p.toList.any Char.isDigit, "Password must contain at least one digit"),
    (p.toList.any (fun c => specialChars.contains c),
      "Password must contain at least one special character") ]

/-- Message of the first rule in the list that fails, if any. -/
def firstFailure : List (Bool × String) → Option String
  | [] => none
  | (ok, msg) :: rest => if ok then firstFailure rest else some msg

/-! ### `PaginationParams` (`app/api/deps.py`, lines 132-153) and the page
count of `get_user_files` (`app/api/v1/files.py`, lines 179-185) -/

structure PaginationParams where
  page : Int
  per_page : Int
  offset : Int
  limit : Int
  deriving Repr, DecidableEq

/-- Embedding of `PaginationParams.__init__`: normalizes `page` and
`per_page` in source order, then derives `offset` and `limit`. -/
def PaginationParams.init (page per_page max_per_page : Int) : PaginationParams :=
  let page := if page < 1 then 1 else page
  let per_page := if per_page < 1 then 20 else per_page
  let per_page := if per_page > max_per_page then max_per_page else per_page
  { page := page
    per_page := per_page
    offset := (page - 1) * per_page
    limit := per_page }

/-- The `pages` field computed by `get_user_files`:
`(total + per_page - 1) // per_page` with Python floor division. -/
def file_list_pages (total : Nat) (p : PaginationParams) : Int :=
  Int.fdiv ((total : Int) + p.per_page - 1) p.per_page

/-! ### Theorems for the claims on password validation and pagination -/

theorem firstFailure_passwordChecks (p : String) :
    validate_password p =
      match firstFailure (passwordChecks p) with
      | some m => (false, m)
      | none => (true, "Password is valid") := by
  by_cases h1 : p.length < 8 <;>
  cases h2 : p.toList.any Char.isUpper <;>
  cases h3 : p.toList.any Char.isLower <;>
  cases h4 : p.toList.any Char.isDigit <;>
  cases h5 : p.toList.any (fun c => specialChars.contains c) <;>
    simp only [validate_password, passwordChecks, firstFailure, h1, h2, h3, h4, h5,
      decide_True, decide_False, Bool.not_true, Bool.not_false, if_true, if_false,
      ite_true, ite_false, eq_self_iff_true] <;>
    simp

/-- C4: `validate_password` applies its five rules in the fixed source
order, returns the first failing rule's message, succeeds with
"Password is valid" exactly when all five rules pass, and behaves as
specified on the three sample inputs. -/
theorem validate_password_spec :
    (∀ p, validate_password p =
      match firstFailure (passwordChecks p) with
      | some m => (false, m)
      | none => (true, "Password is valid")) ∧
    (∀ p, (validate_password p).1 = true ↔ (passwordChecks p).all (fun r => r.1) = true) ∧
    validate_password "Short1!" = (false, "Password must be at least 8 characters long") ∧
    validate_password "NoSpecial1" = (false, "Password must contain at least one special character") ∧
    validate_password "Valid123!" = (true, "Password is valid") := by
  refine ⟨firstFailure_passwordChecks, fun p => ?_, by decide, by decide, by decide⟩
  rw [firstFailure_passwordChecks p]
  simp only [passwordChecks, firstFailure, List.all_cons, List.all_nil]
  cases h1 : decide (p.length < 8) <;>
  cases h2 : p.toList.any Char.isUpper <;>
  cases h3 : p.toList.any Char.isLower <;>
  cases h4 : p.toList.any Char.isDigit <;>
  cases h5 : p.toList.any (fun c => specialChars.contains c) <;>
    simp

lemma fdiv_natCast (a b : Nat) : Int.fdiv (a : Int) (b : Int) = ((a / b : Nat) : Int) := by
  rw [Int.fdiv_eq_ediv _ (by positivity)]
  exact (Int.natCast_div a b).symm

lemma fdiv_ceil_aux (t : Nat) (q : Int) (hq : 1 ≤ q) :
    Int.fdiv ((t : Int) + q - 1) q = ((t ⌈/⌉ q.toNat : Nat) : Int) := by
  obtain ⟨n, rfl⟩ : ∃ n : Nat, q = (n : Int) := ⟨q.toNat, by omega⟩
  rw [Nat.ceilDiv_eq_add_pred_div, Int.toNat_natCast]
  have h1 : (t : Int) + (n : Int) - 1 = ((t + n - 1 : Nat) : Int) := by omega
  rw [h1, fdiv_natCast]

lemma pagination_per_page_pos (page pp mx : Int) (hmx : 1 ≤ mx) :
    1 ≤ (PaginationParams.init page pp mx).per_page := by
  simp only [PaginationParams.init]
  split <;> split <;> omega

/-- C5: requested page below 1 normalizes to 1; requested per_page above
the max of 100 caps at 100; requested per_page below 1 normalizes to 20;
the offset is `(page - 1) * per_page` of the normalized values; and the
page count of the file listing equals `ceil(total / per_page)`. -/
theorem pagination_spec :
    (∀ page pp mx, page < 1 → (PaginationParams.init page pp mx).page = 1) ∧
    (∀ page pp, 100 < pp → (PaginationParams.init page pp 100).per_page = 100) ∧
    (∀ page pp, pp < 1 → (PaginationParams.init page pp 100).per_page = 20) ∧
    (∀ page pp mx, (PaginationParams.init page pp mx).offset =
      ((PaginationParams.init page pp mx).page - 1) *
        (PaginationParams.init page pp mx).per_page) ∧
    (∀ (total : Nat) (page pp : Int),
      file_list_pages total (PaginationParams.init page pp 100) =
        ((total ⌈/⌉ (PaginationParams.init page pp 100).per_page.toNat : Nat) : Int)) := by
  refine ⟨?_, ?_, ?_, ?_, ?_⟩
  · intro page pp mx h
    simp only [PaginationParams.init]
    split <;> omega
  · intro page pp h
    have hpp : ¬ pp < 1 := by omega
    simp only [PaginationParams.init]
    simp only [hpp, if_false, ite_false]
    split <;> omega
  · intro page pp h
    simp only [PaginationParams.init]
    simp [h]
  · intro page pp mx
    rfl
  · intro total page pp
    unfold file_list_pages
    exact fdiv_ceil_aux total _ (pagination_per_page_pos page pp 100 (by norm_num))

/-- C5 witness: the normalization and page-count facts instantiated at
concrete inputs (page 0, per_page 500, per_page 0, total 7 with per_page 3). -/
theorem pagination_spec_witness :
    (PaginationParams.init 0 5 100).page = 1 ∧
    (PaginationParams.init 1 500 100).per_page = 100 ∧
    (PaginationParams.init 1 0 100).per_page = 20 ∧
    (PaginationParams.init 3 10 100).offset = 20 ∧
    file_list_pages 7 (PaginationParams.init 1 3 100) = 3 := by
  refine ⟨pagination_spec.1 0 5 100 (by decide),
          pagination_spec.2.1 1 500 (by decide),
          pagination_spec.2.2.1 1 0 (by decide), by decide, ?_⟩
  rw [pagination_spec.2.2.2.2 7 1 3]
  decide

/-- C6 counterexample: requesting per_page 0 yields effective per_page 20,
not 1 as the claim states. -/
theorem per_page_floor_counterexample :
    (PaginationParams.init 1 0 100).per_page = 20 ∧
    (PaginationParams.init 1 0 100).per_page ≠ 1 := by
  constructor <;> decide

/-- C6 amended: for every requested per_page below 1 the effective
per_page of the listing operations (max_per_page 100) is the default 20. -/
theorem per_page_default_spec (pp : Int) (page : Int) (h : pp < 1) :
    (PaginationParams.init page pp 100).per_page = 20 := by
  simp only [PaginationParams.init]
  split <;> omega

/-- C6 amended, witness: requested per_page 0 gives effective 20. -/
theorem per_page_default_spec_witness :
    (PaginationParams.init 1 0 100).per_page = 20 :=
  per_page_default_spec 0 1 (by decide)

/-! ### Data model: users and files (`app/models/user.py`, `app/models/file.py`).
Only the fields the verified operations read are carried. -/

inductive UserRole where
  | user
  | admin
  | moderator
  deriving Repr, DecidableEq, BEq

structure User where
  id : Int
  email : String
  hashed_password : String
  is_active : Bool
  role : UserRole
  api_key : Option String
  storage_quota : Int
  storage_used : Int
  deriving Repr, DecidableEq

/-- The `permissions` dict of `User.has_permission`; `dict.get(role, [])`
yields `[]` for the admin role, which is absent from the dict. -/
def rolePermissions : UserRole → List String
  | .user => ["read", "write:own", "delete:own"]
  | .moderator => ["read", "write:own", "delete:own", "moderate"]
  | .admin => []

/-- Embedding of `User.has_permission` (`app/models/user.py`, lines 84-96). -/
def User.has_permission (u : User) (permission : String) : Bool :=
  if u.role = .admin then true
  else (rolePermissions u.role).contains permission

inductive FileStatus where
  | pending
  | processing
  | completed
  | failed
  | deleted
  deriving Repr, DecidableEq, BEq

inductive FileVisibility where
  | priv
  | public
  | shared
  deriving Repr, DecidableEq, BEq

structure FileRecord where
  name : String
  size : Int
  status : FileStatus
  visibility : FileVisibility
  share_expires_at : Option Int
  user_id : Int
  deriving Repr, DecidableEq

/-- Embedding of `FileRecord.is_public` (`app/models/file.py`, lines 111-114). -/
def FileRecord.is_public (f : FileRecord) : Bool :=
  f.visibility == FileVisibility.public

/-- Embedding of `FileRecord.is_shared` (`app/models/file.py`, lines 116-123);
`datetime.utcnow()` is the explicit `now`. -/
def FileRecord.is_shared (f : FileRecord) (now : Int) : Bool :=
  if f.visibility ≠ FileVisibility.shared then false
  else
    match f.share_expires_at with
    | none => true
    | some e => decide (e > now)

/-- C7: `is_public` holds exactly for visibility `public`; `is_shared` holds
exactly for visibility `shared` with no expiry or a future expiry; a shared
file without expiry is shared at every instant, and a shared file with
expiry `e` is shared at `now` exactly when `now < e` (so a past expiry
gives `false`). -/
theorem file_visibility_spec :
    (∀ f : FileRecord, f.is_public = true ↔ f.visibility = FileVisibility.public) ∧
    (∀ (f : FileRecord) (now : Int), f.is_shared now = true ↔
      f.visibility = FileVisibility.shared ∧
        (f.share_expires_at = none ∨ ∃ e, f.share_expires_at = some e ∧ now < e)) ∧
    (∀ (f : FileRecord) (now : Int),
      FileRecord.is_shared { f with visibility := FileVisibility.shared, share_expires_at := none } now = true) ∧
    (∀ (f : FileRecord) (now e : Int),
      FileRecord.is_shared { f with visibility := FileVisibility.shared, share_expires_at := some e } now = decide (now < e)) := by
  refine ⟨fun f => ?_, fun f now => ?_, fun f now => rfl, fun f now e => ?_⟩
  · cases h : f.visibility <;> simp only [FileRecord.is_public, h] <;> decide
  · cases h : f.visibility <;>
    cases he : f.share_expires_at <;>
      simp [FileRecord.is_shared, h, he]
  · simp [FileRecord.is_shared]

/-- C9: `has_permission` grants everything to admins; a plain user has
exactly `read`, `write:own`, `delete:own`; a moderator has exactly those
three plus `moderate`. -/
theorem has_permission_spec :
    (∀ (u : User) (p : String), User.has_permission { u with role := .admin } p = true) ∧
    (∀ (u : User) (p : String), User.has_permission { u with role := .user } p = true ↔
      p = "read" ∨ p = "write:own" ∨ p = "delete:own") ∧
    (∀ (u : User) (p : String), User.has_permission { u with role := .moderator } p = true ↔
      p = "read" ∨ p = "write:own" ∨ p = "delete:own" ∨ p = "moderate") := by
  refine ⟨fun u p => rfl, fun u p => ?_, fun u p => ?_⟩ <;>
    simp [User.has_permission, rolePermissions]

/-! ### `RateLimiter.is_allowed` (`app/core/security.py`, lines 191-222).
The `self.requests` dict is embedded as a total map from keys to timestamp
lists, absent keys mapping to `[]` (the source inserts `[]` on first use). -/

def RateLimiter.is_allowed (requests : String → List Int) (key : String)
    (max_requests window_seconds now : Int) : Bool × (String → List Int) :=
  let pruned := (requests key).filter (fun t => decide (t > now - window_seconds))
  if (pruned.length : Int) ≥ max_requests then
    (false, fun k => if k = key then pruned else requests k)
  else
    (true, fun k => if k = key then pruned ++ [now] else requests k)

/-- C8: `is_allowed` prunes the key's timestamps to those strictly inside
the window, denies without recording when the pruned count has reached the
limit, otherwise records `now` and allows; with max 3 and window 60, four
in-window calls give true, true, true, false, and a call after the window
has elapsed gives true again. -/
theorem rate_limiter_spec :
    (∀ (reqs : String → List Int) (key : String) (mx w now : Int),
      (RateLimiter.is_allowed reqs key mx w now).1 =
        !decide ((((reqs key).filter (fun t => decide (t > now - w))).length : Int) ≥ mx)) ∧
    (∀ (reqs : String → List Int) (key : String) (mx w now : Int),
      (RateLimiter.is_allowed reqs key mx w now).1 = false →
      (RateLimiter.is_allowed reqs key mx w now).2 key =
        (reqs key).filter (fun t => decide (t > now - w))) ∧
    (∀ (reqs : String → List Int) (key : String) (mx w now : Int),
      (RateLimiter.is_allowed reqs key mx w now).1 = true →
      (RateLimiter.is_allowed reqs key mx w now).2 key =
        (reqs key).filter (fun t => decide (t > now - w)) ++ [now]) ∧
    (let s0 : String → List Int := fun _ => []
     let r1 := RateLimiter.is_allowed s0 "client" 3 60 0
     let r2 := RateLimiter.is_allowed r1.2 "client" 3 60 1
     let r3 := RateLimiter.is_allowed r2.2 "client" 3 60 2
     let r4 := RateLimiter.is_allowed r3.2 "client" 3 60 3
     let r5 := RateLimiter.is_allowed r4.2 "client" 3 60 63
     r1.1 = true ∧ r2.1 = true ∧ r3.1 = true ∧ r4.1 = false ∧ r5.1 = true) := by
  refine ⟨fun reqs key mx w now => ?_, fun reqs key mx w now h => ?_,
    fun reqs key mx w now h => ?_, by decide⟩
  · simp only [RateLimiter.is_allowed]
    split <;> simp_all
  · simp only [RateLimiter.is_allowed] at h ⊢
    split at h <;> simp_all
  · simp only [RateLimiter.is_allowed] at h ⊢
    split at h
    · simp_all
    · rename_i hc
      rw [if_neg hc]
      simp

/-- C8 witness: the deny and allow branches exercised at concrete states. -/
theorem rate_limiter_spec_witness :
    (RateLimiter.is_allowed (fun _ => [0, 1, 2]) "k" 3 60 3).2 "k" = [0, 1, 2] ∧
    (RateLimiter.is_allowed (fun _ => []) "k" 3 60 5).2 "k" = [5] := by
  constructor
  · exact (rate_limiter_spec.2.1 (fun _ => [0, 1, 2]) "k" 3 60 3 (by decide)).trans (by decide)
  · exact (rate_limiter_spec.2.2.1 (fun _ => []) "k" 3 60 5 (by decide)).trans (by decide)

/-! ### Authentication plumbing (`app/api/deps.py`, `app/api/v1/auth.py`).

JWT internals are not re-implemented: token decoding enters as a function
`decode : String → Except String TokenPayload` standing for
`SecurityManager.decode_token` (whose `JWTError` branch raises a 401 with
detail "Could not validate credentials"), access-token minting as
`mkAccess : String → String`, and API-key hashing as
`hashKey : String → String`.  An `HTTPException(status, detail)` is the
value `ApiError.mk status detail`. -/

structure ApiError where
  status : Int
  detail : String
  deriving Repr, DecidableEq

structure TokenPayload where
  sub : Option String
  typ : Option String
  jti : Option String
  deriving Repr, DecidableEq

structure RefreshTokenRec where
  token : String
  user_id : Int
  expires_at : Int
  revoked : Bool
  deriving Repr, DecidableEq

/-- Embedding of `RefreshToken.is_valid` (`app/models/user.py`, lines 113-116). -/
def RefreshTokenRec.is_valid (t : RefreshTokenRec) (now : Int) : Bool :=
  !t.revoked && decide (t.expires_at > now)

structure Db where
  users : List User
  refresh_tokens : List RefreshTokenRec
  deriving Repr, DecidableEq

/-- `db.exec(select(User).where(User.email == email)).first()`. -/
def findUserByEmail (db : Db) (email : String) : Option User :=
  db.users.find? (fun u => u.email == email)

/-- `db.exec(select(RefreshToken).where(RefreshToken.token == token)).first()`. -/
def findStoredToken (db : Db) (tok : String) : Option RefreshTokenRec :=
  db.refresh_tokens.find? (fun t => t.token == tok)

/-- Python truthiness of an `Optional[str]`: `None` and `""` are falsy. -/
def strTruthy : Option String → Bool
  | none => false
  | some s => !s.isEmpty

/-- The `user = ...` resolution phase of `get_current_user`
(`app/api/deps.py`, lines 31-51): JWT branch first, otherwise API key,
otherwise no user.  The `except JWTError` handler on line 44 is dead code:
`decode_token` has already converted `JWTError` into a 401
"Could not validate credentials", which is what propagates. -/
def resolve_user (decode : String → Except String TokenPayload)
    (hashKey : String → String) (db : Db)
    (token api_key : Option String) : Except ApiError (Option User) :=
  if strTruthy token then
    match decode (token.getD "") with
    | .error _ => .error ⟨401, "Could not validate credentials"⟩
    | .ok payload =>
      if !strTruthy payload.sub || payload.typ != some "access" then
        .error ⟨401, "Invalid token"⟩
      else
        .ok (findUserByEmail db (payload.sub.getD ""))
  else if strTruthy api_key then
    .ok (db.users.find? (fun u => u.api_key == some (hashKey (api_key.getD ""))))
  else
    .ok none

/-- Embedding of `get_current_user` (`app/api/deps.py`, lines 23-59). -/
def get_current_user (decode : String → Except String TokenPayload)
    (hashKey : String → String) (db : Db)
    (token api_key : Option String) : Except ApiError User :=
  match resolve_user decode hashKey db token api_key with
  | .error e => .error e
  | .ok none => .error ⟨401, "Not authenticated"⟩
  | .ok (some u) =>
    if !u.is_active then .error ⟨401, "User account is disabled"⟩
    else .ok u

/-- The `try:` body of the refresh endpoint (`app/api/v1/auth.py`,
lines 171-214), with each raised `HTTPException` as an error value. -/
def refresh_inner (decode : String → Except String TokenPayload)
    (mkAccess : String → String) (db : Db) (now : Int)
    (refresh_tok : String) : Except ApiError String :=
  match decode refresh_tok with
  | .error _ => .error ⟨401, "Could not validate credentials"⟩
  | .ok payload =>
    if !strTruthy payload.sub || payload.typ != some "refresh" then
      .error ⟨401, "Invalid refresh token"⟩
    else
      match findStoredToken db refresh_tok with
      | none => .error ⟨401, "Invalid or expired refresh token"⟩
      | some st =>
        if !st.is_valid now then .error ⟨401, "Invalid or expired refresh token"⟩
        else
          match findUserByEmail db (payload.sub.getD "") with
          | none => .error ⟨401, "User not found or inactive"⟩
          | some u =>
            if !u.is_active then .error ⟨401, "User not found or inactive"⟩
            else .ok (mkAccess u.email)

/-- Embedding of the whole `refresh_token` endpoint: the body runs inside
`try: ... except Exception:` which re-raises every failure — the inner
`HTTPException`s included, since `HTTPException` is an `Exception` — as the
generic 401 "Invalid refresh token". -/
def refresh_endpoint (decode : String → Except String TokenPayload)
    (mkAccess : String → String) (db : Db) (now : Int)
    (refresh_tok : String) : Except ApiError String :=
  match refresh_inner decode mkAccess db now refresh_tok with
  | .ok t => .ok t
  | .error _ => .error ⟨401, "Invalid refresh token"⟩

/-- `.first()` followed by `stored_token.revoked = True`: only the first
record matching the token string is revoked. -/
def revokeFirst : List RefreshTokenRec → String → List RefreshTokenRec
  | [], _ => []
  | t :: ts, tok =>
    if t.token == tok then { t with revoked := true } :: ts
    else t :: revokeFirst ts tok

/-- Embedding of `logout` (`app/api/v1/auth.py`, lines 223-241);
`if refresh_token:` is Python truthiness. -/
def logout (db : Db) (refresh_tok : Option String) : Db :=
  if strTruthy refresh_tok then
    { db with refresh_tokens := revokeFirst db.refresh_tokens (refresh_tok.getD "") }
  else db

/-- C2: the refresh endpoint either succeeds or fails with exactly the
generic 401 "Invalid refresh token" — every distinct inner failure
(decode failure, wrong type, unknown, revoked or expired stored token,
missing or inactive user) is collapsed by the `except Exception` wrapper. -/
theorem refresh_failure_collapse :
    ∀ (decode : String → Except String TokenPayload) (mkAccess : String → String)
      (db : Db) (now : Int) (tok : String),
      (∃ t, refresh_endpoint decode mkAccess db now tok = .ok t) ∨
      refresh_endpoint decode mkAccess db now tok =
        .error ⟨401, "Invalid refresh token"⟩ := by
  intro decode mkAccess db now tok
  unfold refresh_endpoint
  cases refresh_inner decode mkAccess db now tok with
  | ok t => exact .inl ⟨t, rfl⟩
  | error e => exact .inr rfl

lemma findStoredToken_revokeFirst (l : List RefreshTokenRec) (tok : String) :
    List.find? (fun t => t.token == tok) (revokeFirst l tok) =
      (List.find? (fun t => t.token == tok) l).map
        (fun t => { t with revoked := true }) := by
  induction l with
  | nil => rfl
  | cons t ts ih =>
    cases h : (t.token == tok) with
    | true => simp [revokeFirst, h, List.find?]
    | false => simp [revokeFirst, h, List.find?, ih]

/-- C3: once `logout` is called with a stored refresh token's string, the
stored record is marked revoked, and any subsequent call of the refresh
endpoint with that exact string fails with the generic 401 — for every
decoder, so in particular when the token still decodes as a well-formed,
unexpired refresh token. -/
theorem logout_then_refresh (decode : String → Except String TokenPayload)
    (mkAccess : String → String) (db : Db) (now : Int) (tok : String)
    (st : RefreshTokenRec) (hne : tok ≠ "")
    (hst : findStoredToken db tok = some st) :
    findStoredToken (logout db (some tok)) tok = some { st with revoked := true } ∧
    refresh_endpoint decode mkAccess (logout db (some tok)) now tok =
      .error ⟨401, "Invalid refresh token"⟩ := by
  have htr : strTruthy (some tok) = true := by
    have hie : tok.isEmpty = false := by
      cases hi : tok.isEmpty
      · rfl
      · exact absurd ((String.isEmpty_iff tok).mp hi) hne
    simp [strTruthy, hie]
  have h1 : findStoredToken (logout db (some tok)) tok =
      some { st with revoked := true } := by
    simp only [logout, htr, if_true, ite_true]
    unfold findStoredToken at hst ⊢
    simp only [Option.getD]
    rw [findStoredToken_revokeFirst, hst]
    rfl
  refine ⟨h1, ?_⟩
  unfold refresh_endpoint refresh_inner
  cases hdec : decode tok with
  | error e => rfl
  | ok payload =>
    rw [h1]
    by_cases hc : (!strTruthy payload.sub || payload.typ != some "refresh") = true
    · simp [hc]
    · simp [hc, RefreshTokenRec.is_valid]

/-- C3 witness: a concrete login-issued token is revoked by logout and a
subsequent refresh with a decoder that still accepts it fails generically. -/
theorem logout_then_refresh_witness :
    findStoredToken
        (logout ⟨[], [⟨"rt1", 1, 100, false⟩]⟩ (some "rt1")) "rt1" =
      some ⟨"rt1", 1, 100, true⟩ ∧
    refresh_endpoint (fun _ => .ok ⟨some "u@example.com", some "refresh", some "j"⟩)
        (fun e => e) (logout ⟨[], [⟨"rt1", 1, 100, false⟩]⟩ (some "rt1")) 50 "rt1" =
      .error ⟨401, "Invalid refresh token"⟩ :=
  logout_then_refresh (fun _ => .ok ⟨some "u@example.com", some "refresh", some "j"⟩)
    (fun e => e) ⟨[], [⟨"rt1", 1, 100, false⟩]⟩ 50 "rt1" ⟨"rt1", 1, 100, false⟩
    (by decide) rfl

lemma resolve_user_error_status (decode : String → Except String TokenPayload)
    (hashKey : String → String) (db : Db) (token api_key : Option String)
    (e : ApiError) (h : resolve_user decode hashKey db token api_key = .error e) :
    e.status = 401 := by
  unfold resolve_user at h
  split at h
  · split at h
    · cases h
      rfl
    · split at h
      · cases h
        rfl
      · cases h
  · split at h <;> cases h

/-- C10: current-user resolution rejects an inactive user with a 401 whose
detail is "User account is disabled", on the bearer-token path and on the
API-key path alike; and every error it can produce has status 401, so the
403 AccountDisabled error is never produced. -/
theorem get_current_user_disabled_spec :
    (∀ (decode : String → Except String TokenPayload) (hashKey : String → String)
       (db : Db) (token api_key : Option String) (payload : TokenPayload) (u : User),
      strTruthy token = true →
      decode (token.getD "") = .ok payload →
      strTruthy payload.sub = true →
      payload.typ = some "access" →
      findUserByEmail db (payload.sub.getD "") = some u →
      u.is_active = false →
      get_current_user decode hashKey db token api_key =
        .error ⟨401, "User account is disabled"⟩) ∧
    (∀ (decode : String → Except String TokenPayload) (hashKey : String → String)
       (db : Db) (token api_key : Option String) (u : User),
      strTruthy token = false →
      strTruthy api_key = true →
      db.users.find? (fun x => x.api_key == some (hashKey (api_key.getD ""))) = some u →
      u.is_active = false →
      get_current_user decode hashKey db token api_key =
        .error ⟨401, "User account is disabled"⟩) ∧
    (∀ (decode : String → Except String TokenPayload) (hashKey : String → String)
       (db : Db) (token api_key : Option String) (e : ApiError),
      get_current_user decode hashKey db token api_key = .error e →
      e.status = 401 ∧ e ≠ ⟨403, "Account has been disabled"⟩) := by
  refine ⟨?_, ?_, ?_⟩
  · intro decode hashKey db token api_key payload u ht hdec hsub htyp hfind hact
    unfold get_current_user resolve_user
    simp [ht, hdec, hsub, htyp, hfind, hact]
  · intro decode hashKey db token api_key u ht hak hfind hact
    unfold get_current_user resolve_user
    simp [ht, hak, hfind, hact]
  · intro decode hashKey db token api_key e h
    unfold get_current_user at h
    have hs : e.status = 401 := by
      split at h
      · cases h
        exact resolve_user_error_status decode hashKey db token api_key e (by assumption)
      · cases h
        rfl
      · split at h <;> cases h
        rfl
    refine ⟨hs, ?_⟩
    intro hcontra
    rw [hcontra] at hs
    exact absurd hs (by decide)

/-- C10 witness: a concrete inactive user is rejected with the 401 disabled
error on both authentication paths, and a produced error is not the 403
AccountDisabled error. -/
theorem get_current_user_disabled_spec_witness :
    get_current_user (fun _ => .ok ⟨some "off@example.com", some "access", none⟩)
        (fun s => s)
        ⟨[⟨2, "off@example.com", "h", false, .user, some "HASH", 0, 0⟩], []⟩
        (some "tok") none =
      .error ⟨401, "User account is disabled"⟩ ∧
    get_current_user (fun _ => .error "no token")
        (fun _ => "HASH")
        ⟨[⟨2, "off@example.com", "h", false, .user, some "HASH", 0, 0⟩], []⟩
        none (some "raw-key") =
      .error ⟨401, "User account is disabled"⟩ ∧
    (ApiError.mk 401 "Not authenticated").status = 401 ∧
    ApiError.mk 401 "Not authenticated" ≠ ApiError.mk 403 "Account has been disabled" := by
  refine ⟨?_, ?_, ?_⟩
  · exact get_current_user_disabled_spec.1 (fun _ => .ok ⟨some "off@example.com", some "access", none⟩)
      (fun s => s) ⟨[⟨2, "off@example.com", "h", false, .user, some "HASH", 0, 0⟩], []⟩
      (some "tok") none ⟨some "off@example.com", some "access", none⟩
      ⟨2, "off@example.com", "h", false, .user, some "HASH", 0, 0⟩
      (by decide) rfl (by decide) rfl rfl rfl
  · exact get_current_user_disabled_spec.2.1 (fun _ => .error "no token")
      (fun _ => "HASH") ⟨[⟨2, "off@example.com", "h", false, .user, some "HASH", 0, 0⟩], []⟩
      none (some "raw-key") ⟨2, "off@example.com", "h", false, .user, some "HASH", 0, 0⟩
      rfl (by decide) rfl rfl
  · exact get_current_user_disabled_spec.2.2 (fun _ => .error "no token")
      (fun _ => "HASH") ⟨[], []⟩ none none ⟨401, "Not authenticated"⟩ rfl

/-! ### `upload_file` (`app/api/v1/files.py`, lines 46-145).

Disk writes, checksum computation and the background queue do not affect
the quota/record behavior under verification and are not modeled; the
returned value is the mutated user (storage counter) and the file table
with any created record appended. -/

structure Settings where
  allowed_extensions : List String
  max_upload_size : Int
  deriving Repr, DecidableEq

/-- `settings.ALLOWED_EXTENSIONS` and `settings.MAX_UPLOAD_SIZE`
(`app/core/config.py`, lines 67-68). -/
def settings0 : Settings :=
  { allowed_extensions := [".gltf", ".glb", ".babylon", ".obj", ".stl", ".fbx", ".dae"]
    max_upload_size := 104857600 }

/-- `str.lower()` on the ASCII range extensions live in. -/
def strLower (s : String) : String := String.mk (s.toList.map Char.toLower)

/-- `PurePath(filename).suffix`: the extension of the final path component —
empty unless the last dot is neither leading nor trailing in that component. -/
def pathSuffix (filename : String) : String :=
  let base := (filename.toList.reverse.takeWhile (fun c => c ≠ '/')).reverse
  let dotIdxs := (List.range base.length).filter (fun i => base.getD i ' ' = '.')
  match dotIdxs.getLast? with
  | none => ""
  | some i => if 0 < i ∧ i < base.length - 1 then String.mk (base.drop i) else ""

/-- Detail string of `InsufficientStorageException`
(`app/core/exceptions.py`, lines 142-149). -/
def insufficientStorageDetail (required available : Int) : String :=
  "Insufficient storage. Required: " ++ toString required ++
    " bytes, Available: " ++ toString available ++ " bytes"

/-- The storage-quota check of `upload_file` (`app/api/v1/files.py`,
lines 73-78) in isolation: the comparison and the 403
`InsufficientStorageException` it raises on violation. -/
def quota_check (user : User) (file_size : Int) : Except ApiError Unit :=
  if user.storage_used + file_size > user.storage_quota then
    .error ⟨403, insufficientStorageDetail file_size
      (user.storage_quota - user.storage_used)⟩
  else .ok ()

/-- `FileVisibility(visibility)` with the `ValueError → PRIVATE` fallback
and the `if visibility:` truthiness guard (`app/api/v1/files.py`,
lines 99-105). -/
def parseVisibility : Option String → FileVisibility
  | some "private" => FileVisibility.priv
  | some "public" => FileVisibility.public
  | some "shared" => FileVisibility.shared
  | _ => FileVisibility.priv

/-- Embedding of `upload_file`.  The quota check (lines 72-84 of the
source) runs inside `try: ... except Exception: pass`; the raised
`InsufficientStorageException` is itself an `Exception`, so the handler
swallows the raise and the upload continues unconditionally — the
embedding evaluates `quota_check` and discards its outcome exactly as the
handler does. -/
def upload_file (user : User) (filename : String) (file_size : Int)
    (st : Settings) (files : List FileRecord) (visibility : Option String) :
    Except ApiError (User × List FileRecord) :=
  let file_ext := strLower (pathSuffix filename)
  if !st.allowed_extensions.contains file_ext then
    .error ⟨400, "Invalid file type \x27" ++ file_ext ++ "\x27. Allowed types: " ++
      String.intercalate ", " st.allowed_extensions⟩
  else if file_size > st.max_upload_size then
    .error ⟨400, "File size " ++ toString file_size ++
      " bytes exceeds maximum allowed size " ++ toString st.max_upload_size ++ " bytes"⟩
  else
    let _quotaOutcome := quota_check user file_size
    let record : FileRecord :=
      { name := filename
        size := file_size
        status := FileStatus.pending
        visibility := parseVisibility visibility
        share_expires_at := none
        user_id := user.id }
    .ok ({ user with storage_used := user.storage_used + file_size },
      files ++ [record])

/-- The user of the spec's quota acceptance test: quota 1000, used 900. -/
def quotaUser : User :=
  { id := 1
    email := "u@example.com"
    hashed_password := "h"
    is_active := true
    role := .user
    api_key := none
    storage_quota := 1000
    storage_used := 900 }

/-- C1, divergence exhibited at the spec's own acceptance input: the quota
comparison does flag the 150-byte upload (the check in isolation yields
the 403 InsufficientStorage error), yet `upload_file` succeeds anyway —
the `except Exception` handler swallows the raised
`InsufficientStorageException` — creating the record and pushing
storage_used to 1050 > quota 1000; the 100-byte upload succeeds with
storage_used 1000 as the claim states. -/
theorem upload_quota_check_swallowed :
    quota_check quotaUser 150 =
      .error ⟨403, "Insufficient storage. Required: 150 bytes, Available: 100 bytes"⟩ ∧
    upload_file quotaUser "model.gltf" 150 settings0 [] (some "private") =
      .ok ({ quotaUser with storage_used := 1050 },
        [{ name := "model.gltf"
           size := 150
           status := FileStatus.pending
           visibility := FileVisibility.priv
           share_expires_at := none
           user_id := 1 }]) ∧
    ({ quotaUser with storage_used := 1050 } : User).storage_used >
      quotaUser.storage_quota ∧
    upload_file quotaUser "model.gltf" 100 settings0 [] (some "private") =
      .ok ({ quotaUser with storage_used := 1000 },
        [{ name := "model.gltf"
           size := 100
           status := FileStatus.pending
           visibility := FileVisibility.priv
           share_expires_at := none
           user_id := 1 }]) := by
  refine ⟨?_, ?_, by decide, ?_⟩ <;> rfl

end App
